import Mathlib

/-!
Verification of the ironshield-wasm bindings: challenge/response codec,
solver and verifier wrappers, and the WebAssembly capability probe.

Pure Rust functions from the crate are embedded as Lean functions on
`List Nat` byte strings, `Int` 64-bit values (with explicit range
hypotheses) and `String`.  External collaborators (the hash-search
primitive, JSON parsing, the browser environment) are taken as explicit
parameters, following the boundary contracts of the specification.
-/

/-- The Base64URL alphabet (RFC 4648 §5): `A`–`Z`, `a`–`z`, `0`–`9`, `-`, `_`. -/
def b64Alphabet : List Char :=
  ['A', 'B', 'C', 'D', 'E', 'F', 'G', 'H', 'I', 'J', 'K', 'L', 'M',
   'N', 'O', 'P', 'Q', 'R', 'S', 'T', 'U', 'V', 'W', 'X', 'Y', 'Z',
   'a', 'b', 'c', 'd', 'e', 'f', 'g', 'h', 'i', 'j', 'k', 'l', 'm',
   'n', 'o', 'p', 'q', 'r', 's', 't', 'u', 'v', 'w', 'x', 'y', 'z',
   '0', '1', '2', '3', '4', '5', '6', '7', '8', '9', '-', '_']

/-- Character for a 6-bit group. -/
def b64Char (n : Nat) : Char := b64Alphabet.getD n 'A'

/-- Index of a Base64URL character, `none` for characters outside the alphabet. -/
def b64Index (c : Char) : Option Nat := b64Alphabet.findIdx? (fun d => d = c)

/-- Base64URL encoding without padding: 3 bytes map to 4 characters, a final
group of 1 or 2 bytes maps to 2 or 3 characters. -/
def b64Encode : List Nat → List Char
  | [] => []
  | [a] => [b64Char (a / 4), b64Char (a % 4 * 16)]
  | [a, b] => [b64Char (a / 4), b64Char (a % 4 * 16 + b / 16), b64Char (b % 16 * 4)]
  | a :: b :: c :: rest =>
      b64Char (a / 4) :: b64Char (a % 4 * 16 + b / 16) ::
      b64Char (b % 16 * 4 + c / 64) :: b64Char (c % 64) :: b64Encode rest

/-- Base64URL decoding without padding, inverse of `b64Encode`. -/
def b64Decode : List Char → Option (List Nat)
  | [] => some []
  | [_] => none
  | [c1, c2] =>
      match b64Index c1, b64Index c2 with
      | some i1, some i2 => some [i1 * 4 + i2 / 16]
      | _, _ => none
  | [c1, c2, c3] =>
      match b64Index c1, b64Index c2, b64Index c3 with
      | some i1, some i2, some i3 => some [i1 * 4 + i2 / 16, i2 % 16 * 16 + i3 / 4]
      | _, _, _ => none
  | c1 :: c2 :: c3 :: c4 :: rest =>
      match b64Index c1, b64Index c2, b64Index c3, b64Index c4, b64Decode rest with
      | some i1, some i2, some i3, some i4, some bs =>
          some ((i1 * 4 + i2 / 16) :: (i2 % 16 * 16 + i3 / 4) :: (i3 % 4 * 64 + i4) :: bs)
      | _, _, _, _, _ => none

theorem b64Index_b64Char : ∀ n : Nat, n < 64 → b64Index (b64Char n) = some n := by decide

theorem b64_roundtrip : ∀ bs : List Nat, (∀ b ∈ bs, b < 256) →
    b64Decode (b64Encode bs) = some bs
  | [], _ => rfl
  | [a], h => by
      have ha : a < 256 := h a (by simp)
      simp only [b64Encode, b64Decode]
      rw [b64Index_b64Char _ (by omega), b64Index_b64Char _ (by omega)]
      simp only [Option.some.injEq, List.cons.injEq, and_true]
      omega
  | [a, b], h => by
      have ha : a < 256 := h a (by simp)
      have hb : b < 256 := h b (by simp)
      simp only [b64Encode, b64Decode]
      rw [b64Index_b64Char _ (by omega), b64Index_b64Char _ (by omega),
          b64Index_b64Char _ (by omega)]
      simp only [Option.some.injEq, List.cons.injEq, and_true]
      constructor
      · omega
      · omega
  | a :: b :: c :: rest, h => by
      have ha : a < 256 := h a (by simp)
      have hb : b < 256 := h b (by simp)
      have hc : c < 256 := h c (by simp)
      have ih : b64Decode (b64Encode rest) = some rest :=
        b64_roundtrip rest (fun x hx => h x (by simp [hx]))
      simp only [b64Encode, b64Decode]
      rw [b64Index_b64Char _ (by omega), b64Index_b64Char _ (by omega),
          b64Index_b64Char _ (by omega), b64Index_b64Char _ (by omega), ih]
      simp only [Option.some.injEq, List.cons.injEq]
      refine ⟨by omega, by omega, by omega, trivial⟩

/-- `w`-byte big-endian encoding of a natural number (most significant first). -/
def natToBytesBE : Nat → Nat → List Nat
  | 0, _ => []
  | w + 1, n => natToBytesBE w (n / 256) ++ [n % 256]

/-- Big-endian interpretation of a byte string as a natural number. -/
def bytesToNatBE (bs : List Nat) : Nat := bs.foldl (fun acc b => acc * 256 + b) 0

theorem natToBytesBE_length (w n : Nat) : (natToBytesBE w n).length = w := by
  induction w generalizing n with
  | zero => rfl
  | succ w ih => simp [natToBytesBE, ih]

theorem natToBytesBE_lt (w n : Nat) : ∀ b ∈ natToBytesBE w n, b < 256 := by
  induction w generalizing n with
  | zero => intro b hb; simp [natToBytesBE] at hb
  | succ w ih =>
      intro b hb
      simp only [natToBytesBE, List.mem_append, List.mem_singleton] at hb
      rcases hb with hb | hb
      · exact ih _ b hb
      · omega

theorem bytesToNatBE_append_one (xs : List Nat) (y : Nat) :
    bytesToNatBE (xs ++ [y]) = bytesToNatBE xs * 256 + y := by
  simp [bytesToNatBE, List.foldl_append]

theorem bytesToNatBE_natToBytesBE (w n : Nat) (h : n < 256 ^ w) :
    bytesToNatBE (natToBytesBE w n) = n := by
  induction w generalizing n with
  | zero =>
      have : n = 0 := by simpa using h
      simp [this, natToBytesBE, bytesToNatBE]
  | succ w ih =>
      have hdiv : n / 256 < 256 ^ w := by
        rw [Nat.div_lt_iff_lt_mul (by norm_num)]
        calc n < 256 ^ (w + 1) := h
        _ = 256 ^ w * 256 := by ring
      rw [natToBytesBE, bytesToNatBE_append_one, ih _ hdiv]
      omega

/-- Two's-complement 8-byte big-endian encoding of a signed 64-bit value. -/
def intToBytes8 (n : Int) : List Nat :=
  natToBytesBE 8 (n % 18446744073709551616).toNat

/-- Decode 8 bytes as a signed 64-bit big-endian two's-complement value. -/
def bytesToInt64 (bs : List Nat) : Int :=
  if bytesToNatBE bs < 9223372036854775808 then (bytesToNatBE bs : Int)
  else (bytesToNatBE bs : Int) - 18446744073709551616

theorem intToBytes8_length (n : Int) : (intToBytes8 n).length = 8 :=
  natToBytesBE_length 8 _

theorem intToBytes8_lt (n : Int) : ∀ b ∈ intToBytes8 n, b < 256 :=
  natToBytesBE_lt 8 _

theorem bytesToInt64_intToBytes8 (n : Int)
    (h1 : -9223372036854775808 ≤ n) (h2 : n < 9223372036854775808) :
    bytesToInt64 (intToBytes8 n) = n := by
  have hmodlt : n % 18446744073709551616 < 18446744073709551616 :=
    Int.emod_lt_of_pos n (by norm_num)
  have hmodge : 0 ≤ n % 18446744073709551616 :=
    Int.emod_nonneg n (by norm_num)
  have hcast : ((n % 18446744073709551616).toNat : Int) = n % 18446744073709551616 :=
    Int.toNat_of_nonneg hmodge
  have hlt : (n % 18446744073709551616).toNat < 256 ^ 8 := by
    have : (256 : Nat) ^ 8 = 18446744073709551616 := by norm_num
    omega
  rw [bytesToInt64, intToBytes8, bytesToNatBE_natToBytesBE _ _ hlt]
  split
  · omega
  · omega

/-- The IronShield challenge record (`ironshield_types::IronShieldChallenge`):
strings are carried as their UTF-8 byte strings, timestamps as signed 64-bit
integers, the fixed-size arrays as byte lists of the stated lengths. -/
structure IronShieldChallenge where
  random_nonce : List Nat
  created_time : Int
  expiration_time : Int
  website_id : List Nat
  challenge_param : List Nat
  public_key : List Nat
  challenge_signature : List Nat
deriving DecidableEq

/-- The IronShield challenge-response record
(`ironshield_types::IronShieldChallengeResponse`): the originating challenge's
64-byte signature and the solution nonce (signed 64-bit). -/
structure IronShieldChallengeResponse where
  challenge_signature : List Nat
  solution : Int
deriving DecidableEq

/-- Validity of a challenge record: every byte is a byte, string fields fit
the 8-byte length prefix, timestamps fit in `i64`, fixed arrays have their
fixed sizes (32, 32, 64). -/
def IronShieldChallenge.Valid (c : IronShieldChallenge) : Prop :=
  (∀ b ∈ c.random_nonce, b < 256) ∧ c.random_nonce.length < 18446744073709551616 ∧
  -9223372036854775808 ≤ c.created_time ∧ c.created_time < 9223372036854775808 ∧
  -9223372036854775808 ≤ c.expiration_time ∧ c.expiration_time < 9223372036854775808 ∧
  (∀ b ∈ c.website_id, b < 256) ∧ c.website_id.length < 18446744073709551616 ∧
  c.challenge_param.length = 32 ∧ (∀ b ∈ c.challenge_param, b < 256) ∧
  c.public_key.length = 32 ∧ (∀ b ∈ c.public_key, b < 256) ∧
  c.challenge_signature.length = 64 ∧ (∀ b ∈ c.challenge_signature, b < 256)

instance (c : IronShieldChallenge) : Decidable c.Valid := by
  unfold IronShieldChallenge.Valid; infer_instance

/-- Validity of a response record: 64 signature bytes, `i64` solution. -/
def IronShieldChallengeResponse.Valid (r : IronShieldChallengeResponse) : Prop :=
  r.challenge_signature.length = 64 ∧ (∀ b ∈ r.challenge_signature, b < 256) ∧
  -9223372036854775808 ≤ r.solution ∧ r.solution < 9223372036854775808

instance (r : IronShieldChallengeResponse) : Decidable r.Valid := by
  unfold IronShieldChallengeResponse.Valid; infer_instance

/-- A variable-length byte-string field: 8-byte big-endian length prefix,
then the bytes verbatim. -/
def serializeBytes (bs : List Nat) : List Nat := natToBytesBE 8 bs.length ++ bs

/-- Read exactly `n` bytes off the front of a stream. -/
def readBytes (n : Nat) (bs : List Nat) : Option (List Nat × List Nat) :=
  if n ≤ bs.length then some (bs.take n, bs.drop n) else none

/-- Read a length-prefixed byte-string field off the front of a stream. -/
def readLenPrefixed (bs : List Nat) : Option (List Nat × List Nat) :=
  (readBytes 8 bs).bind fun p => readBytes (bytesToNatBE p.1) p.2

theorem readBytes_append (xs rest : List Nat) (n : Nat) (h : xs.length = n) :
    readBytes n (xs ++ rest) = some (xs, rest) := by
  subst h
  have h1 : xs.length ≤ (xs ++ rest).length := by simp
  simp [readBytes, h1, List.take_left, List.drop_left]

theorem readLenPrefixed_serialize (xs rest : List Nat)
    (h : xs.length < 18446744073709551616) :
    readLenPrefixed (serializeBytes xs ++ rest) = some (xs, rest) := by
  have hlt : xs.length < 256 ^ 8 := by
    have : (256 : Nat) ^ 8 = 18446744073709551616 := by norm_num
    omega
  rw [serializeBytes, List.append_assoc, readLenPrefixed,
      readBytes_append _ _ _ (natToBytesBE_length 8 _)]
  simp only [Option.some_bind]
  rw [bytesToNatBE_natToBytesBE _ _ hlt, readBytes_append _ _ _ rfl]

/-- Fixed-order byte encoding of a challenge, per the wire-format contract:
`random_nonce` (length-prefixed), `created_time` (8 bytes), `expiration_time`
(8 bytes), `website_id` (length-prefixed), `challenge_param` (32 bytes),
`public_key` (32 bytes), `challenge_signature` (64 bytes). -/
def challengeToBytes (c : IronShieldChallenge) : List Nat :=
  serializeBytes c.random_nonce ++ intToBytes8 c.created_time ++
  intToBytes8 c.expiration_time ++ serializeBytes c.website_id ++
  c.challenge_param ++ c.public_key ++ c.challenge_signature

/-- Decode a challenge from its fixed-order byte encoding, validating the
fixed field widths and rejecting trailing garbage. -/
def challengeFromBytes (bs : List Nat) : Option IronShieldChallenge :=
  (readLenPrefixed bs).bind fun p1 =>
  (readBytes 8 p1.2).bind fun p2 =>
  (readBytes 8 p2.2).bind fun p3 =>
  (readLenPrefixed p3.2).bind fun p4 =>
  (readBytes 32 p4.2).bind fun p5 =>
  (readBytes 32 p5.2).bind fun p6 =>
  (readBytes 64 p6.2).bind fun p7 =>
  if p7.2 = [] then
    some ⟨p1.1, bytesToInt64 p2.1, bytesToInt64 p3.1, p4.1, p5.1, p6.1, p7.1⟩
  else none

/-- Fixed-order byte encoding of a response: `challenge_signature` (64 bytes)
then `solution` (8 bytes). -/
def responseToBytes (r : IronShieldChallengeResponse) : List Nat :=
  r.challenge_signature ++ intToBytes8 r.solution

/-- Decode a response from its fixed-order byte encoding. -/
def responseFromBytes (bs : List Nat) : Option IronShieldChallengeResponse :=
  (readBytes 64 bs).bind fun p1 =>
  (readBytes 8 p1.2).bind fun p2 =>
  if p2.2 = [] then some ⟨p1.1, bytesToInt64 p2.1⟩ else none

theorem readBytes_intToBytes8 (n : Int) (rest : List Nat) :
    readBytes 8 (intToBytes8 n ++ rest) = some (intToBytes8 n, rest) :=
  readBytes_append _ _ _ (intToBytes8_length n)

theorem challengeFromBytes_challengeToBytes (c : IronShieldChallenge)
    (h : c.Valid) : challengeFromBytes (challengeToBytes c) = some c := by
  obtain ⟨h1, h2, h3, h4, h5, h6, h7, h8, h9, h10, h11, h12, h13, h14⟩ := h
  have e1 := readLenPrefixed_serialize c.random_nonce
    (intToBytes8 c.created_time ++ (intToBytes8 c.expiration_time ++
      (serializeBytes c.website_id ++ (c.challenge_param ++
        (c.public_key ++ c.challenge_signature))))) h2
  have e4 := readLenPrefixed_serialize c.website_id
    (c.challenge_param ++ (c.public_key ++ c.challenge_signature)) h8
  have e5 := readBytes_append c.challenge_param
    (c.public_key ++ c.challenge_signature) 32 h9
  have e6 := readBytes_append c.public_key c.challenge_signature 32 h11
  have e7 : readBytes 64 c.challenge_signature =
      some (c.challenge_signature, ([] : List Nat)) := by
    have := readBytes_append c.challenge_signature [] 64 h13
    simpa using this
  rw [challengeToBytes]
  simp only [List.append_assoc]
  simp only [challengeFromBytes, e1, Option.some_bind, readBytes_intToBytes8,
    e4, e5, e6, e7]
  simp [bytesToInt64_intToBytes8 _ h3 h4, bytesToInt64_intToBytes8 _ h5 h6]

theorem responseFromBytes_responseToBytes (r : IronShieldChallengeResponse)
    (h : r.Valid) : responseFromBytes (responseToBytes r) = some r := by
  obtain ⟨h1, h2, h3, h4⟩ := h
  have hsol : readBytes 8 (intToBytes8 r.solution ++ []) =
      some (intToBytes8 r.solution, ([] : List Nat)) :=
    readBytes_intToBytes8 r.solution []
  rw [responseToBytes]
  simp only [responseFromBytes, readBytes_append _ _ _ h1, Option.some_bind]
  have hsol2 : readBytes 8 (intToBytes8 r.solution) =
      some (intToBytes8 r.solution, ([] : List Nat)) := by
    simpa using hsol
  simp [hsol2, bytesToInt64_intToBytes8 _ h3 h4]

theorem serializeBytes_lt (bs : List Nat) (h : ∀ b ∈ bs, b < 256) :
    ∀ b ∈ serializeBytes bs, b < 256 := by
  intro b hb
  simp only [serializeBytes, List.mem_append] at hb
  rcases hb with hb | hb
  · exact natToBytesBE_lt 8 _ b hb
  · exact h b hb

theorem challengeToBytes_lt (c : IronShieldChallenge) (h : c.Valid) :
    ∀ b ∈ challengeToBytes c, b < 256 := by
  obtain ⟨h1, h2, h3, h4, h5, h6, h7, h8, h9, h10, h11, h12, h13, h14⟩ := h
  intro b hb
  simp only [challengeToBytes, List.append_assoc, List.mem_append] at hb
  rcases hb with hb | hb | hb | hb | hb | hb | hb
  · exact serializeBytes_lt _ h1 b hb
  · exact intToBytes8_lt _ b hb
  · exact intToBytes8_lt _ b hb
  · exact serializeBytes_lt _ h7 b hb
  · exact h10 b hb
  · exact h12 b hb
  · exact h14 b hb

theorem responseToBytes_lt (r : IronShieldChallengeResponse) (h : r.Valid) :
    ∀ b ∈ responseToBytes r, b < 256 := by
  obtain ⟨h1, h2, h3, h4⟩ := h
  intro b hb
  simp only [responseToBytes, List.mem_append] at hb
  rcases hb with hb | hb
  · exact h2 b hb
  · exact intToBytes8_lt _ b hb

/-- Modelled from the spec: `ironshield_types::IronShieldChallenge::to_base64url_header`
(the types crate is outside this repository).  Base64URL without padding of the
fixed-order field concatenation of §4.1 of the specification. -/
def IronShieldChallenge.to_base64url_header (c : IronShieldChallenge) : String :=
  String.mk (b64Encode (challengeToBytes c))

/-- Modelled from the spec: `ironshield_types::IronShieldChallenge::from_base64url_header`
(the types crate is outside this repository).  Base64URL decoding followed by
strict fixed-order field parsing; any failure is an error. -/
def IronShieldChallenge.from_base64url_header (s : String) : Option IronShieldChallenge :=
  (b64Decode s.data).bind challengeFromBytes

/-- Modelled from the spec: `ironshield_types::IronShieldChallengeResponse::to_base64url_header`
(the types crate is outside this repository). -/
def IronShieldChallengeResponse.to_base64url_header (r : IronShieldChallengeResponse) : String :=
  String.mk (b64Encode (responseToBytes r))

/-- Modelled from the spec: `ironshield_types::IronShieldChallengeResponse::from_base64url_header`
(the types crate is outside this repository). -/
def IronShieldChallengeResponse.from_base64url_header (s : String) :
    Option IronShieldChallengeResponse :=
  (b64Decode s.data).bind responseFromBytes

/-- `JsIronShieldChallenge::to_base64url_header` (src/js_challenge.rs): the
JavaScript wrapper delegates to the inner record's encoder. -/
def JsIronShieldChallenge.to_base64url_header (c : IronShieldChallenge) : String :=
  IronShieldChallenge.to_base64url_header c

/-- `JsIronShieldChallenge::from_base64url_header` (src/js_challenge.rs): the
JavaScript wrapper delegates to the inner record's decoder, mapping a decode
failure to a JavaScript error value. -/
def JsIronShieldChallenge.from_base64url_header (s : String) :
    Except String IronShieldChallenge :=
  match IronShieldChallenge.from_base64url_header s with
  | none => Except.error "Failed to decode Base64 URL-safe header"
  | some c => Except.ok c

/-- `JsIronShieldChallengeResponse::to_base64url_header` (src/js_response.rs). -/
def JsIronShieldChallengeResponse.to_base64url_header
    (r : IronShieldChallengeResponse) : String :=
  IronShieldChallengeResponse.to_base64url_header r

/-- `JsIronShieldChallengeResponse::from_base64url_header` (src/js_response.rs). -/
def JsIronShieldChallengeResponse.from_base64url_header (s : String) :
    Except String IronShieldChallengeResponse :=
  match IronShieldChallengeResponse.from_base64url_header s with
  | none => Except.error "Failed to decode Base64 URL-safe header"
  | some r => Except.ok r

/-- C1: decoding the Base64URL header encoding of a valid Challenge or
Response record through the JavaScript wrappers succeeds and returns the
record unchanged, all fields equal. -/
theorem c1_base64url_header_roundtrip
    (c : IronShieldChallenge) (r : IronShieldChallengeResponse)
    (hc : c.Valid) (hr : r.Valid) :
    JsIronShieldChallenge.from_base64url_header
      (JsIronShieldChallenge.to_base64url_header c) = Except.ok c ∧
    JsIronShieldChallengeResponse.from_base64url_header
      (JsIronShieldChallengeResponse.to_base64url_header r) = Except.ok r := by
  constructor
  · rw [JsIronShieldChallenge.from_base64url_header,
        JsIronShieldChallenge.to_base64url_header,
        IronShieldChallenge.from_base64url_header,
        IronShieldChallenge.to_base64url_header]
    simp only [String.data]
    rw [b64_roundtrip _ (challengeToBytes_lt c hc)]
    simp [challengeFromBytes_challengeToBytes c hc]
  · rw [JsIronShieldChallengeResponse.from_base64url_header,
        JsIronShieldChallengeResponse.to_base64url_header,
        IronShieldChallengeResponse.from_base64url_header,
        IronShieldChallengeResponse.to_base64url_header]
    simp only [String.data]
    rw [b64_roundtrip _ (responseToBytes_lt r hr)]
    simp [responseFromBytes_responseToBytes r hr]

/-- The concrete challenge of the specification's test scenario, used as a
witness input. -/
def exampleChallenge : IronShieldChallenge where
  random_nonce := [97, 98, 99]
  created_time := 0
  expiration_time := 1000000000000
  website_id := [101, 120, 97, 109, 112, 108, 101]
  challenge_param := List.replicate 32 0
  public_key := List.replicate 32 0
  challenge_signature := List.replicate 64 0

/-- A concrete response record used as a witness input. -/
def exampleResponse : IronShieldChallengeResponse where
  challenge_signature := List.replicate 64 7
  solution := -42

theorem c1_witness :
    JsIronShieldChallenge.from_base64url_header
      (JsIronShieldChallenge.to_base64url_header exampleChallenge) =
        Except.ok exampleChallenge ∧
    JsIronShieldChallengeResponse.from_base64url_header
      (JsIronShieldChallengeResponse.to_base64url_header exampleResponse) =
        Except.ok exampleResponse :=
  c1_base64url_header_roundtrip exampleChallenge exampleResponse
    (by decide) (by decide)

/-- Lower-case hex digit for a 4-bit value (`hex::encode`). -/
def hexDigitChar (n : Nat) : Char :=
  if n < 10 then Char.ofNat (48 + n) else Char.ofNat (87 + n)

/-- Value of a hex digit character, upper or lower case (`hex::decode`). -/
def hexDigitVal (c : Char) : Option Nat :=
  if 48 ≤ c.toNat ∧ c.toNat ≤ 57 then some (c.toNat - 48)
  else if 97 ≤ c.toNat ∧ c.toNat ≤ 102 then some (c.toNat - 87)
  else if 65 ≤ c.toNat ∧ c.toNat ≤ 70 then some (c.toNat - 55)
  else none

/-- `hex::encode` on a byte string: two lower-case digits per byte. -/
def hexEncodeL : List Nat → List Char
  | [] => []
  | b :: rest => hexDigitChar (b / 16) :: hexDigitChar (b % 16) :: hexEncodeL rest

/-- `hex::encode` producing a `String`. -/
def hexEncode (bs : List Nat) : String := String.mk (hexEncodeL bs)

/-- `hex::decode` on a character list: pairs of digits, odd length rejected. -/
def hexDecodeL : List Char → Option (List Nat)
  | [] => some []
  | [_] => none
  | c1 :: c2 :: rest =>
      match hexDigitVal c1, hexDigitVal c2, hexDecodeL rest with
      | some hi, some lo, some bs => some ((hi * 16 + lo) :: bs)
      | _, _, _ => none

/-- `hex::decode` on a `String`. -/
def hexDecode (s : String) : Option (List Nat) := hexDecodeL s.data

theorem hexEncodeL_length (bs : List Nat) :
    (hexEncodeL bs).length = 2 * bs.length := by
  induction bs with
  | nil => rfl
  | cons b rest ih => simp [hexEncodeL, ih]; omega

theorem hexEncode_length (bs : List Nat) :
    (hexEncode bs).length = 2 * bs.length := by
  simp only [hexEncode, String.length]
  exact hexEncodeL_length bs

/-- `struct IronShieldSolutionResult` (src/lib.rs lines 31–39). -/
structure IronShieldSolutionResult where
  solution_str : String
  solution : Int
  challenge_signature_hex : String
deriving DecidableEq

/-- `create_ironshield_solution_result` (src/lib.rs lines 52–58): packages a
core response for JavaScript, copying the solution, its decimal string
rendering, and the hex encoding of the 64-byte challenge signature. -/
def create_ironshield_solution_result (response : IronShieldChallengeResponse) :
    IronShieldSolutionResult where
  solution_str := toString response.solution
  solution := response.solution
  challenge_signature_hex := hexEncode response.challenge_signature

/-- C8: the solution result preserves the binding link to the originating
challenge: `challenge_signature_hex` is exactly the hex encoding of the
response's signature (128 hex characters for 64 bytes), and `solution_str`
is the decimal rendering of the same value carried in `solution`. -/
theorem c8_solution_result_binding (response : IronShieldChallengeResponse)
    (h : response.challenge_signature.length = 64) :
    (create_ironshield_solution_result response).challenge_signature_hex =
      hexEncode response.challenge_signature ∧
    (create_ironshield_solution_result response).challenge_signature_hex.length = 128 ∧
    (create_ironshield_solution_result response).solution_str =
      toString (create_ironshield_solution_result response).solution := by
  refine ⟨rfl, ?_, rfl⟩
  rw [create_ironshield_solution_result]
  rw [hexEncode_length, h]

theorem c8_witness :
    (create_ironshield_solution_result exampleResponse).challenge_signature_hex =
      hexEncode exampleResponse.challenge_signature ∧
    (create_ironshield_solution_result exampleResponse).challenge_signature_hex.length = 128 ∧
    (create_ironshield_solution_result exampleResponse).solution_str =
      toString (create_ironshield_solution_result exampleResponse).solution :=
  c8_solution_result_binding exampleResponse (by decide)

/-- `JsIronShieldChallengeResponse::new` (src/js_response.rs lines 29–46):
hex-decode the signature, reject a decode failure or a length other than 64
bytes before constructing anything, otherwise build the response record. -/
def JsIronShieldChallengeResponse.new (challenge_signature_hex : String)
    (solution : Int) : Except String IronShieldChallengeResponse :=
  match hexDecode challenge_signature_hex with
  | none => Except.error "Invalid challenge signature hex"
  | some signature_bytes =>
    if signature_bytes.length ≠ 64 then
      Except.error "Challenge signature must be exactly 64 bytes."
    else Except.ok ⟨signature_bytes, solution⟩

/-- C3: the response constructor errors whenever the signature argument is not
valid hex or does not decode to exactly 64 bytes, and on a 64-byte decode it
succeeds with exactly those bytes and the given solution. -/
theorem c3_response_constructor_validates (s : String) (n : Int) :
    (hexDecode s = none →
      ∃ e, JsIronShieldChallengeResponse.new s n = Except.error e) ∧
    (∀ bs, hexDecode s = some bs → bs.length ≠ 64 →
      ∃ e, JsIronShieldChallengeResponse.new s n = Except.error e) ∧
    (∀ bs, hexDecode s = some bs → bs.length = 64 →
      JsIronShieldChallengeResponse.new s n = Except.ok ⟨bs, n⟩) := by
  refine ⟨?_, ?_, ?_⟩
  · intro h
    exact ⟨_, by rw [JsIronShieldChallengeResponse.new, h]⟩
  · intro bs h hlen
    refine ⟨"Challenge signature must be exactly 64 bytes.", ?_⟩
    rw [JsIronShieldChallengeResponse.new, h]
    simp [hlen]
  · intro bs h hlen
    rw [JsIronShieldChallengeResponse.new, h]
    simp [hlen]

theorem c3_witness :
    JsIronShieldChallengeResponse.new (hexEncode (List.replicate 64 0)) 5 =
      Except.ok ⟨List.replicate 64 0, 5⟩ :=
  (c3_response_constructor_validates (hexEncode (List.replicate 64 0)) 5).2.2
    (List.replicate 64 0) (by decide) (by decide)

/-- `struct SolutionResult` (src/lib.rs lines 18–28); the hash strings are
carried as UTF-8 byte strings. -/
structure SolutionResult where
  nonce_str : String
  nonce : Nat
  hash : List Nat
  hash_prefix : List Nat
deriving DecidableEq

/-- Rust `str::is_char_boundary` at index `i` of a UTF-8 byte string: `true`
at 0 and at the total length, otherwise `true` exactly when the byte at `i`
is not a continuation byte. -/
def is_char_boundary (bs : List Nat) (i : Nat) : Bool :=
  if i = 0 then true
  else
    match bs[i]? with
    | none => decide (i = bs.length)
    | some b => decide (b < 128) || decide (192 ≤ b)

/-- `create_solution_result` (src/lib.rs lines 42–49).  The slice `hash[..10]`
panics when index 10 is not a character boundary of the hash string; the panic
is modelled as `none`. -/
def create_solution_result (nonce : Nat) (hash : List Nat) : Option SolutionResult :=
  if is_char_boundary hash 10 then
    some { nonce_str := toString nonce, nonce := nonce, hash := hash,
           hash_prefix := hash.take 10 }
  else none

/-- `solve_pow_challenge` (src/lib.rs lines 69–83): run the core search (an
external collaborator, taken as a parameter), map its failure to an error
value, and package a success via `create_solution_result`; the outer `none`
models the panic inherited from `create_solution_result`.  The conversion of
the packaged struct to a JavaScript object is binding scaffolding and elided. -/
def solve_pow_challenge
    (find_solution : String → Nat → Except String (Nat × List Nat))
    (challenge : String) (difficulty : Nat) :
    Option (Except String SolutionResult) :=
  match find_solution challenge difficulty with
  | Except.error e => some (Except.error e)
  | Except.ok p =>
    match create_solution_result p.1 p.2 with
    | some r => some (Except.ok r)
    | none => none

/-- C9: `create_solution_result` is partial: it panics when the hash is
shorter than 10 bytes, and when byte 10 exists but is a UTF-8 continuation
byte; on a hash of at least 10 ASCII bytes it succeeds and the prefix field
is exactly the first 10 characters.  `solve_pow_challenge` inherits the
panic on any core output whose hash violates the boundary condition. -/
theorem c9_create_solution_result_panics (nonce : Nat) (hash : List Nat) :
    (hash.length < 10 → create_solution_result nonce hash = none) ∧
    (∀ b, hash[10]? = some b → 128 ≤ b → b < 192 →
      create_solution_result nonce hash = none) ∧
    (10 ≤ hash.length → (∀ b ∈ hash, b < 128) →
      ∃ r, create_solution_result nonce hash = some r ∧
        SolutionResult.hash_prefix r = hash.take 10) ∧
    (∀ find c d, find c d = Except.ok (nonce, hash) → hash.length < 10 →
      solve_pow_challenge find c d = none) := by
  have hshort : hash.length < 10 → create_solution_result nonce hash = none := by
    intro h
    have hnone : hash[10]? = none := by
      rw [List.getElem?_eq_none_iff]
      omega
    rw [create_solution_result, is_char_boundary]
    simp [hnone]
    omega
  refine ⟨hshort, ?_, ?_, ?_⟩
  · intro b hb h128 h192
    rw [create_solution_result, is_char_boundary]
    simp [hb]
    omega
  · intro hlen hascii
    have heq : create_solution_result nonce hash =
        some { nonce_str := toString nonce, nonce := nonce, hash := hash,
               hash_prefix := hash.take 10 } := by
      rcases Nat.lt_or_ge 10 hash.length with hlt | hge
      · have hb : hash[10]? = some hash[10] := List.getElem?_eq_getElem hlt
        have hmem : hash[10] ∈ hash := List.getElem_mem hlt
        have hb128 : hash[10] < 128 := hascii _ hmem
        rw [create_solution_result, is_char_boundary]
        simp [hb, hb128]
      · have hlen10 : hash.length = 10 := by omega
        have hnone : hash[10]? = none := by
          rw [List.getElem?_eq_none_iff]
          omega
        rw [create_solution_result, is_char_boundary]
        simp [hnone, hlen10]
    exact ⟨_, heq, rfl⟩
  · intro find c d hfind hlenlt
    rw [solve_pow_challenge, hfind]
    simp [hshort hlenlt]

theorem c9_witness :
    create_solution_result 5 [226, 130] = none ∧
    (∃ r, create_solution_result 5 (List.replicate 64 48) = some r ∧
      SolutionResult.hash_prefix r = (List.replicate 64 48).take 10) := by
  constructor
  · exact (c9_create_solution_result_panics 5 [226, 130]).1 (by decide)
  · exact (c9_create_solution_result_panics 5 (List.replicate 64 48)).2.2.1
      (by decide) (by decide)

/-- Modelled from the spec: `ironshield_core::verify_ironshield_solution`
(the core crate is outside this repository).  Per §4.3 of the specification
the verifier rejects when the challenge is expired (current time at or past
`expiration_time`) and otherwise applies the difficulty predicate `test` to
`(challenge_param, solution)`.  The difficulty predicate and the clock are
external collaborators, taken as parameters. -/
def verify_ironshield_solution_core (test : List Nat → Int → Bool) (now : Int)
    (challenge : IronShieldChallenge) (solution_nonce : Int) : Bool :=
  decide (now < challenge.expiration_time) &&
    test challenge.challenge_param solution_nonce

/-- `verify_ironshield_solution` (src/lib.rs lines 251–259): parse the
challenge JSON (parsing is an external collaborator, taken as a parameter),
surfacing a parse failure as an error, and otherwise return the core
verifier's boolean as a plain `ok` value. -/
def verify_ironshield_solution (parse : String → Option IronShieldChallenge)
    (test : List Nat → Int → Bool) (now : Int)
    (challenge_json : String) (solution_nonce : Int) : Except String Bool :=
  match parse challenge_json with
  | none => Except.error "Error parsing challenge JSON for verification"
  | some challenge =>
      Except.ok (verify_ironshield_solution_core test now challenge solution_nonce)

/-- C2: verification never panics: a malformed challenge JSON yields a
distinguishable error value, and a well-formed one always yields a plain
boolean, so an invalid solution is reported as `ok false`, never as an
error. -/
theorem c2_verify_total_error_shape (parse : String → Option IronShieldChallenge)
    (test : List Nat → Int → Bool) (now : Int)
    (challenge_json : String) (solution_nonce : Int) :
    (parse challenge_json = none →
      ∃ e, verify_ironshield_solution parse test now challenge_json solution_nonce =
        Except.error e) ∧
    (∀ c, parse challenge_json = some c →
      verify_ironshield_solution parse test now challenge_json solution_nonce =
        Except.ok (verify_ironshield_solution_core test now c solution_nonce)) := by
  constructor
  · intro h
    exact ⟨_, by rw [verify_ironshield_solution, h]⟩
  · intro c h
    rw [verify_ironshield_solution, h]

theorem c2_witness :
    (∃ e, verify_ironshield_solution (fun _ => none) (fun _ _ => true) 0 "bad" 3 =
      Except.error e) ∧
    (verify_ironshield_solution (fun _ => some exampleChallenge)
      (fun _ _ => false) 0 "ok" 3 = Except.ok false) := by
  constructor
  · exact (c2_verify_total_error_shape (fun _ => none)
      (fun _ _ => true) 0 "bad" 3).1 rfl
  · exact (c2_verify_total_error_shape (fun _ => some exampleChallenge)
      (fun _ _ => false) 0 "ok" 3).2 exampleChallenge rfl

/-- C5: an expired challenge is rejected regardless of solution validity:
whenever the parsed challenge's expiration time is at or before the current
time, verification returns `ok false`, even for a difficulty predicate that
accepts the nonce. -/
theorem c5_expired_challenge_rejected (parse : String → Option IronShieldChallenge)
    (test : List Nat → Int → Bool) (now : Int)
    (challenge_json : String) (solution_nonce : Int)
    (c : IronShieldChallenge) (hp : parse challenge_json = some c)
    (hexp : c.expiration_time ≤ now) :
    verify_ironshield_solution parse test now challenge_json solution_nonce =
      Except.ok false := by
  simp only [verify_ironshield_solution, hp, verify_ironshield_solution_core]
  have hdec : decide (now < c.expiration_time) = false := by
    simp
    omega
  rw [hdec]
  simp

theorem c5_witness :
    verify_ironshield_solution (fun _ => some exampleChallenge)
      (fun _ _ => true) 2000000000000 "j" 3 = Except.ok false :=
  c5_expired_challenge_rejected (fun _ => some exampleChallenge)
    (fun _ _ => true) 2000000000000 "j" 3 exampleChallenge rfl (by decide)

/-- `verify_pow_solution` (src/lib.rs lines 157–159): a direct delegation to
the core predicate `ironshield_core::verify_solution`, an external
collaborator taken as a parameter. -/
def verify_pow_solution (verify_solution : String → String → Nat → Bool)
    (challenge : String) (nonce_value : String) (difficulty : Nat) : Bool :=
  verify_solution challenge nonce_value difficulty

/-- C4: the verification wrapper is a pure total function returning exactly
the core predicate's boolean on the same arguments: no search, no error
path, no state. -/
theorem c4_verify_pow_delegates (verify_solution : String → String → Nat → Bool)
    (challenge : String) (nonce_value : String) (difficulty : Nat) :
    verify_pow_solution verify_solution challenge nonce_value difficulty =
      verify_solution challenge nonce_value difficulty := rfl

/-- Sequential scan of candidate nonces `k, k+1, …` until the predicate
accepts one, with explicit fuel standing for the bounded maximum of §4.2. -/
def findNonceFrom (p : Int → Bool) : Nat → Int → Option Int
  | 0, _ => none
  | fuel + 1, k => if p k then some k else findNonceFrom p fuel (k + 1)

/-- Modelled from the spec: `ironshield_core::find_solution_single_threaded`
(the core crate is outside this repository).  Per §4.2 single-worker search
degenerates to a sequential scan from nonce 0; success pairs the found nonce
with the challenge's signature, exhaustion is an error. -/
def find_solution_single_threaded (test : List Nat → Int → Bool) (maxIter : Nat)
    (challenge : IronShieldChallenge) : Except String IronShieldChallengeResponse :=
  match findNonceFrom (test challenge.challenge_param) maxIter 0 with
  | some n => Except.ok ⟨challenge.challenge_signature, n⟩
  | none => Except.error "SearchExhausted"

/-- `solve_ironshield_challenge` (src/lib.rs lines 181–199): parse the
challenge JSON, run the single-threaded core search, and package the result
via `create_ironshield_solution_result`. -/
def solve_ironshield_challenge (parse : String → Option IronShieldChallenge)
    (test : List Nat → Int → Bool) (maxIter : Nat) (challenge_json : String) :
    Except String IronShieldSolutionResult :=
  match parse challenge_json with
  | none => Except.error "Error parsing challenge JSON"
  | some challenge =>
    match find_solution_single_threaded test maxIter challenge with
    | Except.error e => Except.error e
    | Except.ok response =>
        Except.ok (create_ironshield_solution_result response)

/-- C7: the single-threaded solver is deterministic: the same challenge JSON
always produces the same result, and in particular two successful runs carry
the identical nonce in both the `solution` and `solution_str` fields. -/
theorem c7_single_threaded_deterministic
    (parse : String → Option IronShieldChallenge)
    (test : List Nat → Int → Bool) (maxIter : Nat) (challenge_json : String) :
    solve_ironshield_challenge parse test maxIter challenge_json =
      solve_ironshield_challenge parse test maxIter challenge_json ∧
    (∀ r1 r2,
      solve_ironshield_challenge parse test maxIter challenge_json = Except.ok r1 →
      solve_ironshield_challenge parse test maxIter challenge_json = Except.ok r2 →
      r1.solution = r2.solution ∧ r1.solution_str = r2.solution_str) := by
  refine ⟨rfl, ?_⟩
  intro r1 r2 h1 h2
  rw [h1] at h2
  cases h2
  exact ⟨rfl, rfl⟩

theorem c7_witness :
    solve_ironshield_challenge (fun _ => some exampleChallenge)
        (fun _ n => decide (n = 2)) 10 "j" =
      solve_ironshield_challenge (fun _ => some exampleChallenge)
        (fun _ n => decide (n = 2)) 10 "j" ∧
    (create_ironshield_solution_result ⟨exampleChallenge.challenge_signature, 2⟩).solution =
      (create_ironshield_solution_result ⟨exampleChallenge.challenge_signature, 2⟩).solution ∧
    (create_ironshield_solution_result ⟨exampleChallenge.challenge_signature, 2⟩).solution_str =
      (create_ironshield_solution_result ⟨exampleChallenge.challenge_signature, 2⟩).solution_str :=
  ⟨(c7_single_threaded_deterministic (fun _ => some exampleChallenge)
      (fun _ n => decide (n = 2)) 10 "j").1,
   (c7_single_threaded_deterministic (fun _ => some exampleChallenge)
      (fun _ n => decide (n = 2)) 10 "j").2
      (create_ironshield_solution_result ⟨exampleChallenge.challenge_signature, 2⟩)
      (create_ironshield_solution_result ⟨exampleChallenge.challenge_signature, 2⟩)
      (by rfl) (by rfl)⟩

/-- The browser environment consulted by the capability probe
(src/wasm_compat.rs): presence of the `WebAssembly` and `SharedArrayBuffer`
globals, and `window.navigator.hardware_concurrency` when a window exists
(`none` models an absent window, so the count cannot be determined). -/
structure BrowserEnv where
  hasWasm : Bool
  hasSharedArrayBuffer : Bool
  windowConcurrency : Option Nat

/-- `struct WasmCompatibility` (src/wasm_compat.rs lines 26–36). -/
structure WasmCompatibility where
  mode : String
  supports_wasm : Bool
  supports_shared_memory : Bool
  supports_threads : Bool
  thread_count : Nat
deriving DecidableEq

/-- `WasmCompatibility::new` (src/wasm_compat.rs lines 41–51): the default,
worst-case JavaScript-only configuration. -/
def WasmCompatibility.new : WasmCompatibility where
  mode := "javascript"
  supports_wasm := false
  supports_shared_memory := false
  supports_threads := false
  thread_count := 1

/-- `is_wasm_supported` (src/wasm_compat.rs lines 56–59). -/
def is_wasm_supported (env : BrowserEnv) : Bool := env.hasWasm

/-- `is_shared_array_buffer_supported` (src/wasm_compat.rs lines 63–66). -/
def is_shared_array_buffer_supported (env : BrowserEnv) : Bool :=
  env.hasSharedArrayBuffer

/-- `get_hardware_concurrency` (src/wasm_compat.rs lines 71–75): the
navigator's logical-processor count, or 1 when there is no window to ask. -/
def get_hardware_concurrency (env : BrowserEnv) : Nat :=
  match env.windowConcurrency with
  | some n => n
  | none => 1

/-- `check_multithreading_support` (src/wasm_compat.rs lines 80–82). -/
def check_multithreading_support (env : BrowserEnv) : Bool :=
  is_wasm_supported env && is_shared_array_buffer_supported env &&
    decide (get_hardware_concurrency env > 2)

/-- `check_wasm_compatibility` (src/wasm_compat.rs lines 89–113): start from
the default object; without WebAssembly return it unchanged, otherwise fill
in the probed capabilities and pick `wasm-mt` or `wasm` mode. -/
def check_wasm_compatibility (env : BrowserEnv) : WasmCompatibility :=
  if !is_wasm_supported env then WasmCompatibility.new
  else
    { mode := if check_multithreading_support env then "wasm-mt" else "wasm",
      supports_wasm := true,
      supports_shared_memory := is_shared_array_buffer_supported env,
      supports_threads := check_multithreading_support env,
      thread_count := get_hardware_concurrency env }

/-- C6: absence of capability degrades to the single-worker default without
error: without WebAssembly the probe returns the default object (mode
`javascript`, all flags false, one thread), and whenever the hardware
concurrency cannot be determined the reported thread count is 1. -/
theorem c6_capability_fallback (env : BrowserEnv) :
    (is_wasm_supported env = false →
      check_wasm_compatibility env = WasmCompatibility.new ∧
      (check_wasm_compatibility env).mode = "javascript" ∧
      (check_wasm_compatibility env).supports_wasm = false ∧
      (check_wasm_compatibility env).supports_shared_memory = false ∧
      (check_wasm_compatibility env).supports_threads = false ∧
      (check_wasm_compatibility env).thread_count = 1) ∧
    (env.windowConcurrency = none →
      (check_wasm_compatibility env).thread_count = 1) := by
  constructor
  · intro h
    simp [check_wasm_compatibility, h, WasmCompatibility.new]
  · intro h
    rcases hw : env.hasWasm with _ | _
    · simp [check_wasm_compatibility, is_wasm_supported, hw, WasmCompatibility.new]
    · simp [check_wasm_compatibility, is_wasm_supported, hw,
        get_hardware_concurrency, h]

theorem c6_witness :
    (check_wasm_compatibility ⟨false, true, some 8⟩ = WasmCompatibility.new ∧
      (check_wasm_compatibility ⟨false, true, some 8⟩).mode = "javascript" ∧
      (check_wasm_compatibility ⟨false, true, some 8⟩).supports_wasm = false ∧
      (check_wasm_compatibility ⟨false, true, some 8⟩).supports_shared_memory = false ∧
      (check_wasm_compatibility ⟨false, true, some 8⟩).supports_threads = false ∧
      (check_wasm_compatibility ⟨false, true, some 8⟩).thread_count = 1) ∧
    (check_wasm_compatibility ⟨true, true, none⟩).thread_count = 1 :=
  ⟨(c6_capability_fallback ⟨false, true, some 8⟩).1 rfl,
   (c6_capability_fallback ⟨true, true, none⟩).2 rfl⟩

/-- C10: invariants of every probe result: `supports_threads` implies
WebAssembly, shared memory and more than two logical processors; the mode is
`wasm-mt` exactly for `supports_threads`, `javascript` exactly when
WebAssembly is unsupported, and `wasm` otherwise. -/
theorem c10_compatibility_invariant (env : BrowserEnv) :
    ((check_wasm_compatibility env).supports_threads = true →
      (check_wasm_compatibility env).supports_wasm = true ∧
      (check_wasm_compatibility env).supports_shared_memory = true ∧
      (check_wasm_compatibility env).thread_count > 2) ∧
    ((check_wasm_compatibility env).mode = "wasm-mt" ↔
      (check_wasm_compatibility env).supports_threads = true) ∧
    ((check_wasm_compatibility env).mode = "javascript" ↔
      (check_wasm_compatibility env).supports_wasm = false) ∧
    ((check_wasm_compatibility env).supports_wasm = true →
      (check_wasm_compatibility env).supports_threads = false →
      (check_wasm_compatibility env).mode = "wasm") := by
  rcases hw : env.hasWasm with _ | _
  · simp [check_wasm_compatibility, is_wasm_supported, hw, WasmCompatibility.new]
  · rcases hmt : check_multithreading_support env with _ | _
    · simp [check_wasm_compatibility, is_wasm_supported, hw, hmt]
    · have hthread : is_wasm_supported env = true ∧
          is_shared_array_buffer_supported env = true ∧
          get_hardware_concurrency env > 2 := by
        have := hmt
        simp only [check_multithreading_support, Bool.and_eq_true,
          decide_eq_true_eq] at this
        exact ⟨this.1.1, this.1.2, this.2⟩
      simp [check_wasm_compatibility, is_wasm_supported, hw, hmt,
        hthread.2.1, hthread.2.2]

theorem c10_witness :
    ((check_wasm_compatibility ⟨true, true, some 8⟩).supports_wasm = true ∧
      (check_wasm_compatibility ⟨true, true, some 8⟩).supports_shared_memory = true ∧
      (check_wasm_compatibility ⟨true, true, some 8⟩).thread_count > 2) ∧
    ((check_wasm_compatibility ⟨true, true, some 2⟩).mode = "wasm") :=
  ⟨(c10_compatibility_invariant ⟨true, true, some 8⟩).1 (by decide),
   (c10_compatibility_invariant ⟨true, true, some 2⟩).2.2.2 (by decide) (by decide)⟩
